import Mathlib

/-!
Shallow embedding of the content-ingestion pipeline of the newsletter-rag
repository: the classifier in `newsletter_detector.py` and the text
segmenter (`TextChunker`) in `embeddings.py`, together with theorems
settling the specification claims about them.

Python floats are modelled as exact rationals (all weights are short
decimals), Python strings as Lean `String` / `List Char`, Python sets as
lists of strings, and the semantics of `re.search` as an abstract oracle
`RegexOracle` over which the general theorems are universally quantified.
-/

/-! ### Python string primitives -/

/-- ASCII whitespace, as recognized by Python `str.split()` / `str.strip()`
and by the regex class `\s` (the inputs considered here are ASCII). -/
def pyIsSpace (c : Char) : Bool :=
  c = ' ' || c = '\t' || c = '\n' || c = '\r' || c = '\x0b' || c = '\x0c'

/-- Python `str.lower()` on one character (ASCII range). -/
def pyLowerChar (c : Char) : Char :=
  if 'A' ≤ c ∧ c ≤ 'Z' then Char.ofNat (c.toNat + 32) else c

/-- Python `str.lower()`. -/
def pyLower (s : String) : String := ⟨s.data.map pyLowerChar⟩

/-- Python `str.strip()` on a character list. -/
def pyStripChars (cs : List Char) : List Char :=
  ((cs.dropWhile pyIsSpace).reverse.dropWhile pyIsSpace).reverse

/-- Python `str.strip()`. -/
def pyStrip (s : String) : String := ⟨pyStripChars s.data⟩

/-- Python `s.strip(t)` for a single strip character `t`. -/
def stripCharEnds (t : Char) (cs : List Char) : List Char :=
  ((cs.dropWhile (· = t)).reverse.dropWhile (· = t)).reverse

/-- Python `s.split(sep)[-1]` for a one-character separator: the suffix
after the last occurrence of `sep` (the whole string if `sep` is absent). -/
def afterLastSep (sep : Char) (cs : List Char) : List Char :=
  (cs.reverse.takeWhile (· != sep)).reverse

/-- Helper for `pyWordCount`: `inWord` records whether the previous
character was part of a word. -/
def wordCountGo (inWord : Bool) : List Char → Nat
  | [] => 0
  | c :: rest =>
    if pyIsSpace c then wordCountGo false rest
    else (if inWord then 0 else 1) + wordCountGo true rest

/-- Python `len(s.split())`: the number of maximal runs of non-whitespace
characters. -/
def pyWordCount (cs : List Char) : Nat := wordCountGo false cs

/-! ### Data model (`gmail_client.EmailMessage` and the detector output)

The `date` field of the Python dataclass is a `datetime`; it is never read
by the detector and is modelled as a string. -/

structure EmailMessage where
  id : String
  thread_id : String
  subject : String
  sender : String
  sender_email : String
  date : String
  snippet : String
  body_html : String
  body_text : String
  headers : List (String × String)
  labels : List String
deriving DecidableEq

/-- `newsletter_detector.DetectionResult`. -/
structure DetectionResult where
  is_newsletter : Bool
  is_promotional : Bool
  is_worth_reading : Bool
  newsletter_confidence : ℚ
  promotional_score : ℚ
  quality_score : ℚ
  reasons : List String
deriving DecidableEq

/-- The three thresholds of `NewsletterDetector.__init__`. -/
structure DetectorConfig where
  newsletter_threshold : ℚ
  promotional_threshold : ℚ
  quality_threshold : ℚ
deriving DecidableEq

/-- The constructor defaults `0.4 / 0.5 / 0.3`. -/
def defaultConfig : DetectorConfig := ⟨4/10, 5/10, 3/10⟩

/-- Python `min` on two floats (modelled as rationals), written out so
that concrete scores evaluate inside the kernel. -/
def pyMinQ (a b : ℚ) : ℚ := if a ≤ b then a else b

/-- Python `max` on two floats. -/
def pyMaxQ (a b : ℚ) : ℚ := if a ≤ b then b else a

/-- Python `min` on two ints (here: natural pattern-hit counts). -/
def pyMinN (a b : ℕ) : ℕ := if a ≤ b then a else b

/-- Semantics of Python `re.search(pattern, text) is not None`, kept
abstract: the general theorems below hold for every oracle. -/
def RegexOracle := String → String → Bool

namespace NewsletterDetector

/-- `self.newsletter_domains`. -/
def newsletter_domains : List String :=
  ["substack.com", "beehiiv.com", "mailchimp.com",
   "convertkit.com", "buttondown.email", "revue.co",
   "ghost.io", "campaignmonitor.com", "mailerlite.com",
   "sendinblue.com", "getrevue.co", "emailoctopus.com",
   "benchmarkemail.com", "moosend.com", "drip.com",
   "klaviyo.com", "constantcontact.com", "hubspot.com",
   "medium.com", "linkedin.com", "morningbrew.com",
   "axios.com", "thenewsette.com", "thehustle.co"]

/-- `self.newsletter_sender_patterns` (regex source text, kept as data). -/
def newsletter_sender_patterns : List String :=
  ["newsletter", "digest", "weekly", "daily",
   "updates?", "bulletin", "dispatch", "brief",
   "roundup", "recap", "summary", "edition",
   "insider", "report", "review", "bytes"]

/-- `self.newsletter_subject_patterns`. -/
def newsletter_subject_patterns : List String :=
  ["issue\\s*#?\\d+", "edition\\s*#?\\d+", "vol\\.?\\s*\\d+",
   "#\\d+\\s*[-:—]", "weekly", "daily", "monthly",
   "digest", "roundup", "newsletter", "this\\s+week",
   "top\\s+\\d+", "best\\s+of", "highlights"]

/-- `self.promotional_subject_patterns`. -/
def promotional_subject_patterns : List String :=
  ["\\d+%\\s*off", "save\\s+\\$?\\d+", "discount", "sale\\b",
   "deal\\b", "offer\\b", "promo\\b", "coupon", "voucher",
   "limited\\s+time", "expires?\\b", "ends\\s+(today|soon|tonight)",
   "last\\s+chance", "final\\s+(hours?|days?)", "hurry",
   "don\x27?t\\s+miss", "act\\s+(now|fast)", "today\\s+only",
   "flash\\s+sale", "clearance", "free\\s+shipping",
   "exclusive\\s+(offer|deal|access)", "special\\s+(offer|deal|price)",
   "order\\s+(confirmed?|shipped|delivered)",
   "shipping\\s+(update|confirmation)", "tracking",
   "your\\s+(order|package|delivery)", "invoice",
   "receipt", "payment\\s+(received|confirmed)",
   "verify\\s+(your|email)", "confirm\\s+(your|email)",
   "password\\s+(reset|changed)", "account\\s+(update|alert)",
   "security\\s+(alert|notice)", "login\\s+(alert|notification)",
   "(new\\s+)?(follower|like|comment|mention|reply)",
   "tagged\\s+you", "connection\\s+request", "friend\\s+request",
   "reminder:", "meeting\\s+(invite|reminder|update)",
   "survey", "feedback", "review\\s+us", "rate\\s+us",
   "we\\s+miss\\s+you", "come\\s+back", "abandoned\\s+cart"]

/-- `self.promotional_content_patterns`. -/
def promotional_content_patterns : List String :=
  ["shop\\s+now", "buy\\s+now", "order\\s+now",
   "click\\s+here", "sign\\s+up\\s+now",
   "\\$\\d+(\\.\\d\x7b2\x7d)?", "£\\d+", "€\\d+",
   "limited\\s+(time|stock|availability)",
   "while\\s+supplies\\s+last", "selling\\s+fast"]

/-- `self.promotional_senders`. -/
def promotional_senders : List String :=
  ["noreply", "no-reply", "donotreply", "do-not-reply",
   "notifications", "notification", "alerts", "alert",
   "mailer", "marketing", "promo", "promotions",
   "deals", "offers", "sales", "store", "shop",
   "orders", "order", "shipping", "delivery",
   "support", "help", "info", "billing", "invoice"]

/-- `self.quality_subject_patterns`. -/
def quality_subject_patterns : List String :=
  ["analysis", "insights?", "deep\\s+dive", "breakdown",
   "explained", "how\\s+to", "why\\b", "guide\\s+to",
   "lessons?\\s+(from|learned)", "takeaways?",
   "industry", "market", "trends?", "forecast",
   "report\\b", "research", "study", "findings",
   "startup", "venture", "funding", "investment",
   "technology", "innovation", "future\\s+of",
   "opinion", "perspective", "essay", "commentary",
   "interview", "conversation\\s+with",
   "reading\\s+list", "must\\s+read", "curated"]

/-- `self.blacklisted_domains`. -/
def blacklisted_domains : List String :=
  ["amazon.com", "ebay.com", "walmart.com", "target.com",
   "doordash.com", "ubereats.com", "grubhub.com",
   "booking.com", "expedia.com", "airbnb.com",
   "uber.com", "lyft.com",
   "facebookmail.com", "twitter.com", "x.com",
   "instagram.com", "tiktok.com", "pinterest.com",
   "netflix.com", "spotify.com", "youtube.com",
   "paypal.com", "venmo.com", "cashapp.com"]

/-- `self.whitelisted_domains`. -/
def whitelisted_domains : List String :=
  ["substack.com", "beehiiv.com", "buttondown.email",
   "ghost.io", "morningbrew.com", "axios.com", "thehustle.co"]

/-- The regex of line 295 of `newsletter_detector.py`, kept as data and
interpreted through the oracle. -/
def priceRegexSrc : String := "\\$\\d+|%\\s*off|\\bsale\\b|\\bdeal\\b"

/-- `NewsletterDetector._extract_domain`. -/
def extract_domain (email : String) : String :=
  if email = "" then ""
  else if email.contains '@' then
    ⟨stripCharEnds '>' ((afterLastSep '@' email.data).map pyLowerChar)⟩
  else ""

/-- `NewsletterDetector._extract_sender_name`. -/
def extract_sender_name (sender : String) : String :=
  if sender = "" then ""
  else if sender.contains '<' then
    pyLower (pyStrip ⟨sender.data.takeWhile (· != '<')⟩)
  else pyLower sender

/-- `NewsletterDetector._check_patterns`: the text is lowercased once and
each pattern is tried with `re.search`; the matching patterns are
returned.  (The per-pattern `try` of the source only skips patterns whose
evaluation raises; the total oracle never does.) -/
def check_patterns (r : RegexOracle) (text : String) (patterns : List String) :
    Bool × List String :=
  if text = "" then (false, [])
  else
    let tl := pyLower text
    let ms := patterns.filter (fun p => r p tl)
    (decide (0 < ms.length), ms)

/-- `NewsletterDetector._has_unsubscribe_header` on the actual field type
of `EmailMessage.headers` (a dict, modelled as an association list): some
key compares case-insensitively equal to `"list-unsubscribe"`. -/
def has_unsubscribe_header (m : EmailMessage) : Bool :=
  m.headers.any (fun kv => pyLower kv.1 == "list-unsubscribe")

/-- Helper for the `re.split(r'[@.\-_]', ...)` of line 275: splitting on
every single occurrence of one of the four separator characters. -/
def splitSepsGo : List Char → List Char → List (List Char)
  | cur, [] => [cur.reverse]
  | cur, c :: rest =>
    if c = '@' || c = '.' || c = '-' || c = '_' then
      cur.reverse :: splitSepsGo [] rest
    else splitSepsGo (c :: cur) rest

/-- `re.split(r'[@.\-_]', sender_email)`. -/
def splitOnSenderSeps (s : String) : List String :=
  (splitSepsGo [] s.data).map (fun cs => ⟨cs⟩)

/-- `NewsletterDetector._calculate_newsletter_score`. -/
def calcNewsletterScore (r : RegexOracle) (m : EmailMessage) : ℚ × List String :=
  let sender_email := pyLower m.sender_email
  let sender_name := extract_sender_name m.sender
  let domain := extract_domain sender_email
  let subject := m.subject
  let s1 : ℚ × List String :=
    if has_unsubscribe_header m then (35/100, ["Has unsubscribe header"]) else (0, [])
  let s2 : ℚ × List String :=
    if domain ∈ newsletter_domains then
      (35/100, ["Newsletter platform: " ++ domain]) else (0, [])
  let s3 : ℚ × List String :=
    if (check_patterns r sender_name newsletter_sender_patterns).1 then
      (2/10, ["Newsletter sender pattern"]) else (0, [])
  let s4 : ℚ × List String :=
    if (check_patterns r subject newsletter_subject_patterns).1 then
      (25/100, ["Newsletter subject pattern"]) else (0, [])
  (pyMinQ (s1.1 + s2.1 + s3.1 + s4.1) 1, s1.2 ++ s2.2 ++ s3.2 ++ s4.2)

/-- `NewsletterDetector._calculate_promotional_score`. -/
def calcPromotionalScore (r : RegexOracle) (m : EmailMessage) : ℚ × List String :=
  let sender_email := pyLower m.sender_email
  let domain := extract_domain sender_email
  let subject := m.subject
  let body : String := ⟨m.body_text.data.take 2000⟩
  if domain ∈ blacklisted_domains then (1, ["Blacklisted sender domain"])
  else
    let s1 : ℚ × List String :=
      match (splitOnSenderSeps sender_email).find?
          (fun p => decide (p ∈ promotional_senders)) with
      | some p => (3/10, ["Promotional sender: " ++ p])
      | none => (0, [])
    let subjChk := check_patterns r subject promotional_subject_patterns
    let s2 : ℚ × List String :=
      if subjChk.1 then
        (15/100 * ((pyMinN subjChk.2.length 3 : ℕ) : ℚ),
         ["Promotional subject (" ++ Nat.repr subjChk.2.length ++ " patterns)"])
      else (0, [])
    let bodyChk := check_patterns r body promotional_content_patterns
    let s3 : ℚ × List String :=
      if bodyChk.1 then
        (1/10 * ((pyMinN bodyChk.2.length 4 : ℕ) : ℚ), ["Promotional content"])
      else (0, [])
    let s4 : ℚ × List String :=
      if r priceRegexSrc (pyLower subject) then
        (25/100, ["Price/discount in subject"]) else (0, [])
    (pyMinQ (s1.1 + s2.1 + s3.1 + s4.1) 1, s1.2 ++ s2.2 ++ s3.2 ++ s4.2)

/-- `NewsletterDetector._calculate_promotional_score` under the
exception semantics of its `try/except` (lines 264-302): if an exception
is raised after `k` completed stages, the handler falls through to
`return min(score, 1.0), reasons` with the score and reasons accumulated
so far.  The stages are: 1 the black-list check (an early `return`, so it
still fires whenever `k ≥ 1`), 2 the sender-token loop, 3 the subject
patterns, 4 the body patterns, 5 the price/discount search of line 295 —
the one call inside the `try` that no inner handler guards.  `k ≥ 5`
means no exception; then this agrees with `calcPromotionalScore`. -/
def calcPromotionalScoreAt (r : RegexOracle) (m : EmailMessage) (k : Nat) :
    ℚ × List String :=
  let sender_email := pyLower m.sender_email
  let domain := extract_domain sender_email
  let subject := m.subject
  let body : String := ⟨m.body_text.data.take 2000⟩
  if k = 0 then (pyMinQ 0 1, [])
  else if domain ∈ blacklisted_domains then (1, ["Blacklisted sender domain"])
  else
    let s1 : ℚ × List String :=
      match (splitOnSenderSeps sender_email).find?
          (fun p => decide (p ∈ promotional_senders)) with
      | some p => (3/10, ["Promotional sender: " ++ p])
      | none => (0, [])
    let subjChk := check_patterns r subject promotional_subject_patterns
    let s2 : ℚ × List String :=
      if subjChk.1 then
        (15/100 * ((pyMinN subjChk.2.length 3 : ℕ) : ℚ),
         ["Promotional subject (" ++ Nat.repr subjChk.2.length ++ " patterns)"])
      else (0, [])
    let bodyChk := check_patterns r body promotional_content_patterns
    let s3 : ℚ × List String :=
      if bodyChk.1 then
        (1/10 * ((pyMinN bodyChk.2.length 4 : ℕ) : ℚ), ["Promotional content"])
      else (0, [])
    let s4 : ℚ × List String :=
      if r priceRegexSrc (pyLower subject) then
        (25/100, ["Price/discount in subject"]) else (0, [])
    if k = 1 then (pyMinQ 0 1, [])
    else if k = 2 then (pyMinQ s1.1 1, s1.2)
    else if k = 3 then (pyMinQ (s1.1 + s2.1) 1, s1.2 ++ s2.2)
    else if k = 4 then (pyMinQ (s1.1 + s2.1 + s3.1) 1, s1.2 ++ s2.2 ++ s3.2)
    else (pyMinQ (s1.1 + s2.1 + s3.1 + s4.1) 1, s1.2 ++ s2.2 ++ s3.2 ++ s4.2)

/-- `NewsletterDetector._calculate_quality_score`. -/
def calcQualityScore (r : RegexOracle) (m : EmailMessage) : ℚ × List String :=
  let sender_email := pyLower m.sender_email
  let domain := extract_domain sender_email
  let subject := m.subject
  let body : String := ⟨m.body_text.data.take 3000⟩
  let s1 : ℚ × List String :=
    if domain ∈ whitelisted_domains then
      (4/10, ["Quality newsletter platform"]) else (0, [])
  let subjChk := check_patterns r subject quality_subject_patterns
  let s2 : ℚ × List String :=
    if subjChk.1 then
      (15/100 * ((pyMinN subjChk.2.length 2 : ℕ) : ℚ), ["Quality subject"]) else (0, [])
  let wc := pyWordCount body.data
  let s3 : ℚ × List String :=
    if 500 < wc then (15/100, ["Substantial content"])
    else if 200 < wc then (1/10, ["Decent content length"])
    else if wc < 100 then (-(2/10), [])
    else (0, [])
  (pyMaxQ (pyMinQ (s1.1 + s2.1 + s3.1) 1) 0, s1.2 ++ s2.2 ++ s3.2)

/-- The body of `NewsletterDetector.detect` as a function of the three
scoring results. -/
def detectWith (ns ps qs : ℚ × List String) (cfg : DetectorConfig) : DetectionResult :=
  let is_newsletter := decide (cfg.newsletter_threshold ≤ ns.1)
  let is_promotional := decide (cfg.promotional_threshold ≤ ps.1)
  let is_worth_reading :=
    is_newsletter && !is_promotional && decide (cfg.quality_threshold ≤ qs.1)
  { is_newsletter := is_newsletter
    is_promotional := is_promotional
    is_worth_reading := is_worth_reading
    newsletter_confidence := ns.1
    promotional_score := ps.1
    quality_score := qs.1
    reasons := ns.2 ++ ps.2 ++ qs.2 }

/-- `NewsletterDetector.detect` (its `try` body; in this embedding the
scoring functions are total, so the body never raises). -/
def detect (r : RegexOracle) (cfg : DetectorConfig) (m : EmailMessage) : DetectionResult :=
  detectWith (calcNewsletterScore r m) (calcPromotionalScore r m) (calcQualityScore r m) cfg

/-- The `try/except` wrapper of `NewsletterDetector.detect`, lines
344-373: exceptions are modelled by `Except`; the `except` branch builds
the maximally conservative verdict of lines 365-373. -/
def detectHandled (body : Except String DetectionResult) : DetectionResult :=
  match body with
  | .ok res => res
  | .error e =>
    { is_newsletter := false
      is_promotional := true
      is_worth_reading := false
      newsletter_confidence := 0
      promotional_score := 1
      quality_score := 0
      reasons := ["Error: " ++ e] }

/-- The comparison underlying Python's
`results.sort(key=lambda x: x[1].quality_score, reverse=True)`: in a
stable descending sort, `a` stays before `b` exactly when `a`'s key is at
least `b`'s. -/
def qualityDescBool (a b : EmailMessage × DetectionResult) : Bool :=
  decide (b.2.quality_score ≤ a.2.quality_score)

/-- The accumulation loop of `NewsletterDetector.filter_newsletters`.
(The per-message `try/except continue` cannot fire: `detect` catches all
its own errors.) -/
def filterLoop (r : RegexOracle) (cfg : DetectorConfig) (quality_only : Bool) :
    List (EmailMessage × DetectionResult) → List EmailMessage →
    List (EmailMessage × DetectionResult)
  | acc, [] => acc
  | acc, m :: rest =>
    let res := detect r cfg m
    let acc2 :=
      if quality_only then (if res.is_worth_reading then acc ++ [(m, res)] else acc)
      else (if res.is_newsletter then acc ++ [(m, res)] else acc)
    filterLoop r cfg quality_only acc2 rest

/-- `NewsletterDetector.filter_newsletters`: Python's
`results.sort(key=lambda x: x[1].quality_score, reverse=True)` is a
stable descending sort, modelled by `List.mergeSort` with the relation
"keep `a` before `b` iff `a`'s quality score is ≥ `b`'s". -/
def filter_newsletters (r : RegexOracle) (cfg : DetectorConfig)
    (emails : List EmailMessage) (quality_only : Bool) :
    List (EmailMessage × DetectionResult) :=
  (filterLoop r cfg quality_only [] emails).mergeSort qualityDescBool

end NewsletterDetector

/-! ### `embeddings.py`: data model and `TextChunker` -/

/-- `content_cleaner.CleanedContent`. -/
structure CleanedContent where
  title : String
  text : String
  word_count : Int
  source_email_id : String
  source_subject : String
  source_sender : String
  source_date : String
deriving DecidableEq

/-- `embeddings.TextChunk`.  `embedding` is `Optional[list[float]]` in the
source and always `None` at chunking time. -/
structure TextChunk where
  id : String
  text : String
  embedding : Option (List ℚ)
  source_email_id : String
  source_title : String
  source_sender : String
  source_date : String
  chunk_index : Nat
  total_chunks : Nat
deriving DecidableEq

namespace TextChunker

/-- Configuration defaults from `config.py`: `CHUNK_SIZE` (env default
1000) and `CHUNK_OVERLAP` (env default 200). -/
def CHUNK_SIZE : Int := 1000

/-- See `CHUNK_SIZE`. -/
def CHUNK_OVERLAP : Int := 200

/-- Python `x or default` for the constructor arguments: `None` and `0`
are both falsy and fall back to the default. -/
def pyOrInt (x : Option Int) (d : Int) : Int :=
  match x with
  | none => d
  | some v => if v = 0 then d else v

/-- The sizes stored by `TextChunker.__init__`. -/
structure Config where
  chunk_size : Int
  overlap : Int
deriving DecidableEq

/-- `TextChunker.__init__(chunk_size, overlap)`: plain assignments with
`or`-defaulting and no validation of any kind. -/
def init (chunk_size overlap : Option Int) : Config :=
  ⟨pyOrInt chunk_size CHUNK_SIZE, pyOrInt overlap CHUNK_OVERLAP⟩

/-- Scanner for `re.split(r'(?<=[.!?])\s+', text)`: pieces are cut at
every maximal whitespace run whose preceding character is `.`, `!` or
`?`.  `skip` is true while consuming such a run, `prev` is the previously
consumed character, `cur` the current piece (reversed). -/
def splitPunctGo (skip : Bool) (prev : Option Char) (cur : List Char) :
    List Char → List (List Char)
  | [] => [cur.reverse]
  | c :: rest =>
    if skip then
      if pyIsSpace c then splitPunctGo true (some c) cur rest
      else splitPunctGo false (some c) (c :: cur) rest
    else if (prev = some '.' ∨ prev = some '!' ∨ prev = some '?') ∧ pyIsSpace c then
      cur.reverse :: splitPunctGo true (some c) [] rest
    else splitPunctGo false (some c) (c :: cur) rest

/-- Scanner for Python `s.split('\n\n')`: leftmost non-overlapping
occurrences of a double newline. -/
def splitNNGo (cur : List Char) : List Char → List (List Char)
  | '\n' :: '\n' :: rest => cur.reverse :: splitNNGo [] rest
  | c :: rest => splitNNGo (c :: cur) rest
  | [] => [cur.reverse]

/-- Python `'\n\n' in s`. -/
def containsNN : List Char → Bool
  | '\n' :: '\n' :: _ => true
  | _ :: rest => containsNN rest
  | [] => false

/-- `TextChunker._split_into_sentences`: regex split on
sentence-terminal punctuation followed by whitespace, a further split of
any piece containing a paragraph break, then strip and drop empties. -/
def splitIntoSentences (text : List Char) : List (List Char) :=
  let sentences := splitPunctGo false none [] text
  let final := sentences.flatMap (fun s => if containsNN s then splitNNGo [] s else [s])
  (final.map pyStripChars).filter (fun s => !s.isEmpty)

/-- Python `' '.join(pieces)`. -/
def joinSpace : List (List Char) → List Char
  | [] => []
  | [s] => s
  | s :: rest => s ++ ' ' :: joinSpace rest

/-- Python `l[-n:]` for `n > 0`: the last `n` elements. -/
def takeRight (n : Nat) (cs : List Char) : List Char :=
  cs.drop (cs.length - n)

/-- The mutable loop state of `TextChunker.chunk`: emitted chunk texts,
the pieces of the chunk under construction, and `current_length`. -/
structure ChunkState where
  chunks : List (List Char)
  cur : List (List Char)
  clen : Nat
deriving DecidableEq

/-- The overlap seed built at a flush, lines 140-142: the last one or two
accumulated pieces joined, truncated from the left when longer than the
overlap budget — including the Python quirk that `overlap_text[-overlap:]`
with `overlap == 0` keeps the whole string (`s[-0:] == s`). -/
def overlapSeed (overlap : Nat) (cur : List (List Char)) : List Char :=
  let overlap_text :=
    if 2 ≤ cur.length then joinSpace (cur.drop (cur.length - 2)) else []
  if overlap < overlap_text.length then
    (if overlap = 0 then overlap_text else takeRight overlap overlap_text)
  else overlap_text

/-- One iteration of the `for sentence in sentences` loop of
`TextChunker.chunk` (lines 130-148). -/
def chunkStep (chunk_size overlap : Nat) (st : ChunkState) (sentence : List Char) :
    ChunkState :=
  let slen := sentence.length
  let st2 :=
    if chunk_size < st.clen + slen ∧ st.cur ≠ [] then
      let chunk_text := joinSpace st.cur
      let overlap_text := overlapSeed overlap st.cur
      { chunks := st.chunks ++ [chunk_text]
        cur := if overlap_text ≠ [] then [overlap_text] else []
        clen := overlap_text.length }
    else st
  { chunks := st2.chunks
    cur := st2.cur ++ [sentence]
    clen := st2.clen + slen + 1 }

/-- The chunk texts produced by the multi-chunk path of
`TextChunker.chunk` (before stripping): the sentence loop followed by the
final flush of a non-empty `current_chunk`. -/
def chunkTexts (chunk_size overlap : Nat) (text : List Char) : List (List Char) :=
  let sentences := splitIntoSentences text
  let st := sentences.foldl (chunkStep chunk_size overlap) ⟨[], [], 0⟩
  st.chunks ++ (if st.cur ≠ [] then [joinSpace st.cur] else [])

/-- Construction of the `TextChunk` objects from `enumerate(chunks)`
(lines 156-169); `i` is the enumeration counter. -/
def mkChunksGo (content : CleanedContent) (total : Nat) :
    Nat → List (List Char) → List TextChunk
  | _, [] => []
  | i, t :: ts =>
    { id := content.source_email_id ++ "_" ++ Nat.repr i
      text := pyStrip ⟨t⟩
      embedding := none
      source_email_id := content.source_email_id
      source_title := content.title
      source_sender := content.source_sender
      source_date := content.source_date
      chunk_index := i
      total_chunks := total } :: mkChunksGo content total (i + 1) ts

/-- `TextChunker.chunk` for positive sizes (the claims under check all
assume a positive `chunk_size`/`overlap`, so the sizes are taken as
naturals here; `init` above keeps the unvalidated `Int` semantics). -/
def chunk (chunk_size overlap : Nat) (content : CleanedContent) : List TextChunk :=
  let text := content.text
  if text.data.length ≤ chunk_size then
    [{ id := content.source_email_id ++ "_" ++ Nat.repr 0
       text := text
       embedding := none
       source_email_id := content.source_email_id
       source_title := content.title
       source_sender := content.source_sender
       source_date := content.source_date
       chunk_index := 0
       total_chunks := 1 }]
  else
    let texts := chunkTexts chunk_size overlap text.data
    mkChunksGo content texts.length 0 texts

end TextChunker

/-! ### Spec-side definition for claim C9

`specBodyLengthTerm` renders the claim's words for the body-length term
of the quality score — "+0.15 when the body word count exceeds 500, +0.10
when it exceeds 200 but not 500, and −0.20 when it is below 100" — as a
function of a word count, to be compared with the source's term. -/

def specBodyLengthTerm (wc : Nat) : ℚ :=
  if 500 < wc then 15/100
  else if 200 < wc then 1/10
  else if wc < 100 then -(2/10)
  else 0

/-! ### Concrete inputs used by counterexamples and witnesses -/

/-- The everywhere-false regex oracle (`re.search` finds nothing); on
every pattern/text pair actually consulted below this is the true answer
of Python's `re.search`. -/
def rFalse : RegexOracle := fun _ _ => false

/-- An entirely empty message. -/
def emailEmpty : EmailMessage :=
  { id := "e0", thread_id := "", subject := "", sender := "", sender_email := "",
    date := "", snippet := "", body_html := "", body_text := "", headers := [],
    labels := [] }

/-- A message from a black-listed sender domain (spec §8's example
`noreply@amazon.com`). -/
def emailAmazon : EmailMessage :=
  { id := "e2", thread_id := "", subject := "50% off today only!",
    sender := "Amazon <noreply@amazon.com>", sender_email := "noreply@amazon.com",
    date := "", snippet := "", body_html := "", body_text := "", headers := [],
    labels := [] }

/-- A message whose sender-address local part (`bob`) matches no
promotional token while its domain (`billing.com`) contains one. -/
def emailBob : EmailMessage :=
  { id := "e8", thread_id := "", subject := "", sender := "",
    sender_email := "bob@billing.com", date := "", snippet := "", body_html := "",
    body_text := "", headers := [], labels := [] }

/-- A body of 502 words of five letters each: 3012 characters, so the
`[:3000]` truncation of `_calculate_quality_score` cuts it to exactly 500
words. -/
def body502 : String := ⟨(List.replicate 502 ("abcde ".data)).flatten⟩

/-- A message whose full body has 502 words but whose first 3000
characters have only 500. -/
def emailLongBody : EmailMessage :=
  { id := "e9", thread_id := "", subject := "", sender := "", sender_email := "",
    date := "", snippet := "", body_html := "", body_text := body502,
    headers := [], labels := [] }

/-- A 250-word body. -/
def body250 : String := ⟨(List.replicate 250 ("word ".data)).flatten⟩

/-- A genuine newsletter message (unsubscribe header, `substack.com`
platform and white-list domain, 250-word body) whose subject
`"flash sale deal"` carries promotional signals. -/
def emailFlashSale : EmailMessage :=
  { id := "e6", thread_id := "", subject := "flash sale deal",
    sender := "Ann <ann@substack.com>", sender_email := "ann@substack.com",
    date := "", snippet := "", body_html := "", body_text := body250,
    headers := [("List-Unsubscribe", "<mailto:u@x.com>")], labels := [] }

/-- A regex oracle agreeing with Python's `re.search` on every
pattern/text pair consulted while classifying `emailFlashSale`: on the
lowercased subject `"flash sale deal"` exactly the promotional patterns
`sale\b`, `deal\b` and `flash\s+sale` match, and the price/discount regex
of line 295 matches through its `\bsale\b` alternative; every consulted
pattern is false on the sender name `"ann"` and on the 250-word body. -/
def rFlashSale : RegexOracle := fun p t =>
  t == "flash sale deal" &&
    (p == "sale\\b" || p == "deal\\b" || p == "flash\\s+sale" ||
      p == NewsletterDetector.priceRegexSrc)

/-- The document of the C3 counterexample: three sentences of lengths 3,
3 and 10, total text length 18. -/
def contentCex : CleanedContent :=
  { title := "t", text := "ab. cd. efghijklm.", word_count := 4,
    source_email_id := "m1", source_subject := "s", source_sender := "snd",
    source_date := "d" }

/-- A document with empty text. -/
def contentEmpty : CleanedContent :=
  { title := "t", text := "", word_count := 0, source_email_id := "m0",
    source_subject := "s", source_sender := "snd", source_date := "d" }

/-- A document containing an oversized sentence: with `chunk_size = 10`
its sentences have lengths 3, 3 and 14. -/
def contentOversized : CleanedContent :=
  { title := "t", text := "ab. cd. efghijklmnopq.", word_count := 4,
    source_email_id := "m2", source_subject := "s", source_sender := "snd",
    source_date := "d" }

/-- What the sentence loop can emit as one (unstripped) chunk text `w`:
either `w` is within `chunk_size + overlap + 1` characters, or `w` is an
oversized-sentence window — one whole sentence of the document longer
than `chunk_size`, standing alone or preceded by exactly one overlap
seed of at most `overlap` characters and a single joining space. -/
def GoodWindow (cs ov : Nat) (sents : List (List Char)) (w : List Char) : Prop :=
  w.length ≤ cs + ov + 1 ∨
  ∃ s ∈ sents, cs < s.length ∧
    (w = s ∨ ∃ seed : List Char, seed.length ≤ ov ∧ w = seed ++ ' ' :: s)

/-- Loop invariant for the sentence loop of `TextChunker.chunk`: every
emitted chunk text is a `GoodWindow`, the joined current chunk is no
longer than `current_length`, an empty current chunk has
`current_length = 0`, and the pending chunk is itself in one of the two
`GoodWindow` regimes: `current_length` within the bound, or the current
pieces are exactly one oversized sentence with an optional seed. -/
def ChunkInv (cs ov : Nat) (sents : List (List Char))
    (st : TextChunker.ChunkState) : Prop :=
  (∀ w ∈ st.chunks, GoodWindow cs ov sents w) ∧
  (TextChunker.joinSpace st.cur).length ≤ st.clen ∧
  (st.cur = [] → st.clen = 0) ∧
  (st.clen ≤ cs + ov + 1 ∨
    ∃ s ∈ sents, cs < s.length ∧
      (st.cur = [s] ∨ ∃ seed : List Char, seed.length ≤ ov ∧ st.cur = [seed, s]))

/-! ## Theorems

Helper lemmas come first, then for each claim its theorem together with
its counterexample and witness where required. -/

/-- `_calculate_promotional_score` with no exception (`k = 5`, all five
stages completed) agrees with the plain translation. -/
theorem calcPromotionalScoreAt_five (r : RegexOracle) (m : EmailMessage) :
    NewsletterDetector.calcPromotionalScoreAt r m 5 =
      NewsletterDetector.calcPromotionalScore r m := rfl

/-- C5 counterexample: `TextChunker.__init__` does not fail fast.  It is
a total function: constructing with `overlap = 5 ≥ chunk_size = 3`, or
with negative sizes, silently yields a chunker carrying exactly those
degenerate sizes — no configuration error is ever raised at construction
time, contrary to the claim. -/
theorem c5_fail_fast_cex :
    TextChunker.init (some 3) (some 5) = ⟨3, 5⟩ ∧
    TextChunker.init (some (-5)) (some (-1)) = ⟨-5, -1⟩ :=
  ⟨rfl, rfl⟩

/-- C5 amended: construction never fails and performs no validation;
any sizes are stored as-is, except that an omitted argument or the falsy
value `0` silently falls back to the `config.py` defaults (1000 / 200)
through Python's `chunk_size or config.CHUNK_SIZE`. -/
theorem c5_no_validation :
    ∀ cs ov : Int,
      TextChunker.init (some cs) (some ov) =
        ⟨if cs = 0 then 1000 else cs, if ov = 0 then 200 else ov⟩ ∧
      TextChunker.init none none = ⟨1000, 200⟩ :=
  fun cs ov => ⟨rfl, rfl⟩

/-- C4 counterexample: segmenting a document with empty text does not
return an empty window list; the `len(text) <= chunk_size` fast path
fires (0 ≤ 1000) and returns exactly one window whose text is empty. -/
theorem c4_empty_document_cex :
    TextChunker.chunk 1000 200 contentEmpty ≠ [] ∧
    (TextChunker.chunk 1000 200 contentEmpty).map (fun ch => ch.text) = [""] := by
  constructor
  · decide
  · decide

/-- C4 amended: for every configuration, segmenting a document whose
full text is empty returns (without error) a single window with empty
text, ordinal 0 and window count 1, through the single-chunk fast path. -/
theorem c4_empty_document :
    ∀ (cs ov : Nat) (title : String) (wc : Int) (src subj snd d : String),
      TextChunker.chunk cs ov ⟨title, "", wc, src, subj, snd, d⟩ =
        [{ id := src ++ "_" ++ Nat.repr 0, text := "", embedding := none,
           source_email_id := src, source_title := title, source_sender := snd,
           source_date := d, chunk_index := 0, total_chunks := 1 }] := by
  intro cs ov title wc src subj snd d
  simp [TextChunker.chunk]

set_option maxRecDepth 100000 in
/-- C6 counterexample: an internal error during scoring does not produce
the maximally conservative verdict.  For `emailFlashSale`, if the
unguarded `re.search` of line 295 raises inside
`_calculate_promotional_score` (modelled by stage count 4), the inner
`except` swallows the error and returns the partial score 0.45; `detect`
then proceeds normally and *retains* the message
(`is_worth_reading = true`, `promotional_score = 0.45`), whereas the
error-free run rejects it as promotional (score 0.7).  The claimed
conservative verdict (`promotional_score = 1.0`, not retained, error
reason) appears in neither run. -/
theorem c6_conservative_verdict_cex :
    (NewsletterDetector.detectWith
      (NewsletterDetector.calcNewsletterScore rFlashSale emailFlashSale)
      (NewsletterDetector.calcPromotionalScoreAt rFlashSale emailFlashSale 4)
      (NewsletterDetector.calcQualityScore rFlashSale emailFlashSale)
      defaultConfig).is_worth_reading = true ∧
    (NewsletterDetector.detectWith
      (NewsletterDetector.calcNewsletterScore rFlashSale emailFlashSale)
      (NewsletterDetector.calcPromotionalScoreAt rFlashSale emailFlashSale 4)
      (NewsletterDetector.calcQualityScore rFlashSale emailFlashSale)
      defaultConfig).promotional_score = 9/20 ∧
    (NewsletterDetector.detect rFlashSale defaultConfig emailFlashSale).is_worth_reading
      = false := by
  refine ⟨?_, ?_, ?_⟩ <;> with_unfolding_all decide

/-- C6 amended: classification never propagates an exception to the
caller, but only an error in `detect` itself outside the three scoring
calls yields the maximally conservative verdict (not a newsletter,
promotional score 1.0, quality 0.0, the error description as the sole
reason); an error inside a scoring function is swallowed by that
function's own handler, which returns the score accumulated so far, and
`detect` proceeds normally with the partial score. -/
theorem c6_error_containment :
    ∀ (v : DetectionResult) (e : String),
      NewsletterDetector.detectHandled (Except.ok v) = v ∧
      NewsletterDetector.detectHandled (Except.error e) =
        { is_newsletter := false, is_promotional := true, is_worth_reading := false,
          newsletter_confidence := 0, promotional_score := 1, quality_score := 0,
          reasons := ["Error: " ++ e] } :=
  fun v e => ⟨rfl, rfl⟩

/-- Structure of `_calculate_quality_score`: the returned score is the
clamp to [0, 1] of the white-list term, the quality-subject term and the
body-length term, the last computed from the word count of the first
3000 characters of the body. -/
theorem calcQualityScore_structure (r : RegexOracle) (m : EmailMessage) :
    (NewsletterDetector.calcQualityScore r m).1 =
      pyMaxQ (pyMinQ
        ((if NewsletterDetector.extract_domain (pyLower m.sender_email) ∈
             NewsletterDetector.whitelisted_domains then (4:ℚ)/10 else 0) +
         (if (NewsletterDetector.check_patterns r m.subject
               NewsletterDetector.quality_subject_patterns).1 then
            15/100 * ((pyMinN (NewsletterDetector.check_patterns r m.subject
              NewsletterDetector.quality_subject_patterns).2.length 2 : ℕ) : ℚ)
          else 0) +
         specBodyLengthTerm (pyWordCount (m.body_text.data.take 3000))) 1) 0 := by
  simp only [NewsletterDetector.calcQualityScore, specBodyLengthTerm]
  split_ifs <;> simp

/-- The six-character block `"abcde "` contributes exactly one word when
prepended to any character list. -/
theorem wordCountGo_block (rest : List Char) :
    wordCountGo false ("abcde ".data ++ rest) = 1 + wordCountGo false rest := by
  show 1 + (0 + (0 + (0 + (0 + wordCountGo false rest)))) = 1 + wordCountGo false rest
  omega

/-- Word count of `n` copies of the block `"abcde "`. -/
theorem pyWordCount_replicate_block :
    ∀ n : ℕ, pyWordCount ((List.replicate n ("abcde ".data)).flatten) = n := by
  intro n
  induction n with
  | zero => rfl
  | succ n ih =>
    simp only [List.replicate_succ, List.flatten_cons]
    unfold pyWordCount at ih ⊢
    rw [wordCountGo_block, ih]
    omega

/-- Taking `6 * m` characters from `n ≥ m` copies of the six-character
block keeps exactly `m` copies. -/
theorem take_replicate_block :
    ∀ (m n : ℕ), m ≤ n →
      ((List.replicate n ("abcde ".data)).flatten).take (6 * m) =
        (List.replicate m ("abcde ".data)).flatten := by
  intro m
  induction m with
  | zero => intro n _; simp
  | succ m ih =>
    intro n h
    obtain ⟨n2, rfl⟩ : ∃ n2, n = n2 + 1 := ⟨n - 1, by omega⟩
    simp only [List.replicate_succ, List.flatten_cons]
    have h6 : 6 * (m + 1) = ("abcde ".data).length + 6 * m := by
      have : ("abcde ".data).length = 6 := rfl
      omega
    rw [h6, List.take_append, ih n2 (by omega)]

/-- C9 counterexample: the body-length term is not computed from the word
count of the message body, but from its first 3000 characters.
`emailLongBody`'s body has 502 words (so the claim demands the `> 500`
branch, +0.15), yet the `[:3000]` truncation leaves 500 words and the
code takes the `> 200` branch: with no other quality signal the score is
0.10, where the claim predicts 0.15. -/
theorem c9_body_length_cex :
    pyWordCount emailLongBody.body_text.data = 502 ∧
    specBodyLengthTerm (pyWordCount emailLongBody.body_text.data) = 15/100 ∧
    (NewsletterDetector.calcQualityScore rFalse emailLongBody).1 = 1/10 := by
  have h502 : pyWordCount emailLongBody.body_text.data = 502 :=
    pyWordCount_replicate_block 502
  have htake : emailLongBody.body_text.data.take 3000 =
      (List.replicate 500 ("abcde ".data)).flatten := by
    have h := take_replicate_block 500 502 (by omega)
    have e : (6 : ℕ) * 500 = 3000 := by norm_num
    rw [e] at h
    exact h
  refine ⟨h502, ?_, ?_⟩
  · rw [h502]
    with_unfolding_all decide
  · rw [calcQualityScore_structure, htake, pyWordCount_replicate_block 500]
    with_unfolding_all decide

/-- C9 amended: the body-length term is computed from the word count of
the first 3000 characters of the body — +0.15 when that count exceeds
500, +0.10 when it exceeds 200 but not 500, −0.20 when it is below 100 —
and the total quality score is clamped to [0, 1] afterwards. -/
theorem c9_body_length :
    ∀ (r : RegexOracle) (m : EmailMessage),
      (NewsletterDetector.calcQualityScore r m).1 =
        pyMaxQ (pyMinQ
          ((if NewsletterDetector.extract_domain (pyLower m.sender_email) ∈
               NewsletterDetector.whitelisted_domains then (4:ℚ)/10 else 0) +
           (if (NewsletterDetector.check_patterns r m.subject
                 NewsletterDetector.quality_subject_patterns).1 then
              15/100 * ((pyMinN (NewsletterDetector.check_patterns r m.subject
                NewsletterDetector.quality_subject_patterns).2.length 2 : ℕ) : ℚ)
            else 0) +
           specBodyLengthTerm (pyWordCount (m.body_text.data.take 3000))) 1) 0 :=
  fun r m => calcQualityScore_structure r m

/-- `_check_patterns` on empty text short-circuits without consulting any
pattern. -/
theorem check_patterns_empty (r : RegexOracle) (pats : List String) :
    NewsletterDetector.check_patterns r "" pats = (false, []) := rfl

/-- C2: a black-listed sender domain forces the promotional score to
exactly 1.0 with the single reason `"Blacklisted sender domain"`,
regardless of every other field of the message (the check precedes all
other scoring and returns immediately), and — for any configuration whose
promotional threshold does not exceed 1 — the message is marked
promotional and rejected. -/
theorem c2_blocklist_override :
    ∀ (r : RegexOracle) (cfg : DetectorConfig) (m : EmailMessage),
      NewsletterDetector.extract_domain (pyLower m.sender_email) ∈
        NewsletterDetector.blacklisted_domains →
      cfg.promotional_threshold ≤ 1 →
      NewsletterDetector.calcPromotionalScore r m = (1, ["Blacklisted sender domain"]) ∧
      (NewsletterDetector.detect r cfg m).promotional_score = 1 ∧
      (NewsletterDetector.detect r cfg m).is_worth_reading = false := by
  intro r cfg m hdom hpt
  have hp : NewsletterDetector.calcPromotionalScore r m = (1, ["Blacklisted sender domain"]) := by
    simp only [NewsletterDetector.calcPromotionalScore]
    rw [if_pos hdom]
  refine ⟨hp, ?_, ?_⟩
  · show (NewsletterDetector.calcPromotionalScore r m).1 = 1
    rw [hp]
  · simp [NewsletterDetector.detect, NewsletterDetector.detectWith, hp, hpt]

/-- C2 witness at spec §8's own example `noreply@amazon.com` under the
default configuration. -/
theorem c2_blocklist_override_witness :
    (NewsletterDetector.extract_domain (pyLower emailAmazon.sender_email) ∈
      NewsletterDetector.blacklisted_domains) ∧
    defaultConfig.promotional_threshold ≤ 1 ∧
    (NewsletterDetector.calcPromotionalScore rFalse emailAmazon =
      (1, ["Blacklisted sender domain"]) ∧
     (NewsletterDetector.detect rFalse defaultConfig emailAmazon).promotional_score = 1 ∧
     (NewsletterDetector.detect rFalse defaultConfig emailAmazon).is_worth_reading = false) :=
  ⟨by with_unfolding_all decide, by with_unfolding_all decide,
   c2_blocklist_override rFalse defaultConfig emailAmazon (by with_unfolding_all decide)
     (by with_unfolding_all decide)⟩

/-- C8 counterexample: the +0.30 sender-token contribution is triggered
by a token in the *domain*.  For `bob@billing.com` the local part `bob`
matches no promotional token, yet `re.split(r'[@.\-_]', ...)` cuts the
whole address into `["bob", "billing", "com"]` and the domain segment
`billing` fires the rule: the promotional score of the otherwise-empty
message is 0.30 with reason `"Promotional sender: billing"` (the claim
predicts no contribution, score 0). -/
theorem c8_sender_token_cex :
    (NewsletterDetector.calcPromotionalScore rFalse emailBob).1 = 3/10 ∧
    (⟨emailBob.sender_email.data.takeWhile (· != '@')⟩ : String) = "bob" ∧
    "bob" ∉ NewsletterDetector.promotional_senders ∧
    (NewsletterDetector.calcPromotionalScore rFalse emailBob).2 =
      ["Promotional sender: billing"] := by
  refine ⟨?_, ?_, ?_, ?_⟩ <;> with_unfolding_all decide

/-- C8 amended: the +0.30 contribution is applied exactly when *some*
segment of the whole sender address — split on `@`, `.`, `-` and `_` — is
a listed token, so a token appearing only in the domain also triggers it.
Isolated here on messages with empty subject and body (and a sender
domain off the black-list, the price regex finding nothing in the empty
subject), where every other promotional rule contributes 0. -/
theorem c8_sender_token :
    ∀ (r : RegexOracle) (m : EmailMessage),
      m.subject = "" → m.body_text = "" →
      NewsletterDetector.extract_domain (pyLower m.sender_email) ∉
        NewsletterDetector.blacklisted_domains →
      r NewsletterDetector.priceRegexSrc "" = false →
      (NewsletterDetector.calcPromotionalScore r m).1 =
        if (NewsletterDetector.splitOnSenderSeps (pyLower m.sender_email)).any
            (fun p => decide (p ∈ NewsletterDetector.promotional_senders))
        then 3/10 else 0 := by
  intro r m hsub hbody hdom hprice
  have hlower : pyLower "" = "" := rfl
  have hbody2 : (⟨("" : String).data.take 2000⟩ : String) = "" := rfl
  simp only [NewsletterDetector.calcPromotionalScore, hsub, hbody, hbody2, hlower,
    check_patterns_empty, hprice]
  rw [if_neg hdom]
  rcases hfind : (NewsletterDetector.splitOnSenderSeps (pyLower m.sender_email)).find?
      (fun p => decide (p ∈ NewsletterDetector.promotional_senders)) with _ | q
  · have hany : ¬ ((NewsletterDetector.splitOnSenderSeps (pyLower m.sender_email)).any
        (fun p => decide (p ∈ NewsletterDetector.promotional_senders)) = true) := by
      rw [List.any_eq_true]
      rintro ⟨x, hx, hpx⟩
      exact absurd hpx (by simpa using List.find?_eq_none.mp hfind x hx)
    rw [if_neg hany]
    simp [hfind, pyMinQ]
  · have hany : (NewsletterDetector.splitOnSenderSeps (pyLower m.sender_email)).any
        (fun p => decide (p ∈ NewsletterDetector.promotional_senders)) = true := by
      rw [List.any_eq_true]
      refine ⟨q, List.mem_of_find?_eq_some hfind, ?_⟩
      have h2 := List.find?_some hfind
      simpa using h2
    rw [if_pos hany]
    simp only [hfind]
    norm_num [pyMinQ]

/-- C8 witness at `bob@billing.com`: the domain token fires and the
promotional score is 0.30. -/
theorem c8_sender_token_witness :
    emailBob.subject = "" ∧ emailBob.body_text = "" ∧
    (NewsletterDetector.extract_domain (pyLower emailBob.sender_email) ∉
      NewsletterDetector.blacklisted_domains) ∧
    rFalse NewsletterDetector.priceRegexSrc "" = false ∧
    ((NewsletterDetector.calcPromotionalScore rFalse emailBob).1 =
      if (NewsletterDetector.splitOnSenderSeps (pyLower emailBob.sender_email)).any
          (fun p => decide (p ∈ NewsletterDetector.promotional_senders))
      then 3/10 else 0) :=
  ⟨rfl, rfl, by with_unfolding_all decide, rfl,
   c8_sender_token rFalse emailBob rfl rfl (by with_unfolding_all decide) rfl⟩

/-- The `quality_only=True` loop of `filter_newsletters` appends, in
input order, exactly the messages whose verdict is worth reading, each
paired with its verdict. -/
theorem filterLoop_quality_eq (r : RegexOracle) (cfg : DetectorConfig)
    (ms : List EmailMessage) :
    ∀ acc, NewsletterDetector.filterLoop r cfg true acc ms =
      acc ++ (ms.filter
        (fun m => (NewsletterDetector.detect r cfg m).is_worth_reading)).map
        (fun m => (m, NewsletterDetector.detect r cfg m)) := by
  induction ms with
  | nil => intro acc; simp [NewsletterDetector.filterLoop]
  | cons m rest ih =>
    intro acc
    rw [NewsletterDetector.filterLoop]
    by_cases h : (NewsletterDetector.detect r cfg m).is_worth_reading
    · simp only [h, if_true, ite_true, List.filter_cons, ih, List.map_cons]
      simp
    · simp only [h, List.filter_cons, ih]
      simp [h]

/-- The acceptance rule inside `detect`: worth reading iff the newsletter
score reaches its threshold, the promotional score stays strictly below
its threshold, and the quality score reaches its threshold. -/
theorem detect_worth_iff (r : RegexOracle) (cfg : DetectorConfig) (m : EmailMessage) :
    (NewsletterDetector.detect r cfg m).is_worth_reading = true ↔
      (cfg.newsletter_threshold ≤ (NewsletterDetector.calcNewsletterScore r m).1 ∧
       (NewsletterDetector.calcPromotionalScore r m).1 < cfg.promotional_threshold ∧
       cfg.quality_threshold ≤ (NewsletterDetector.calcQualityScore r m).1) := by
  simp [NewsletterDetector.detect, NewsletterDetector.detectWith, and_assoc, not_le]

/-- C1: for every oracle, configuration and message, the message is worth
keeping iff `newsletter_score ≥ newsletter_threshold`,
`promotional_score < promotional_threshold` and
`quality_score ≥ quality_threshold` (the scores being the verdict's own
fields), and membership in the `quality_only=True` filter output is
equivalent to that same condition. -/
theorem c1_acceptance_rule :
    ∀ (r : RegexOracle) (cfg : DetectorConfig) (m : EmailMessage)
      (ms : List EmailMessage), m ∈ ms →
      (((NewsletterDetector.detect r cfg m).is_worth_reading = true) ↔
        (cfg.newsletter_threshold ≤
            (NewsletterDetector.detect r cfg m).newsletter_confidence ∧
         (NewsletterDetector.detect r cfg m).promotional_score <
            cfg.promotional_threshold ∧
         cfg.quality_threshold ≤ (NewsletterDetector.detect r cfg m).quality_score)) ∧
      (((m, NewsletterDetector.detect r cfg m) ∈
          NewsletterDetector.filter_newsletters r cfg ms true) ↔
        ((NewsletterDetector.detect r cfg m).is_worth_reading = true)) := by
  intro r cfg m ms hm
  constructor
  · exact detect_worth_iff r cfg m
  · rw [NewsletterDetector.filter_newsletters, List.mem_mergeSort,
      filterLoop_quality_eq, List.nil_append, List.mem_map]
    constructor
    · rintro ⟨m2, hm2, heq⟩
      rw [Prod.mk.injEq] at heq
      obtain ⟨rfl, -⟩ := heq
      exact (List.mem_filter.mp hm2).2
    · intro h
      exact ⟨m, List.mem_filter.mpr ⟨hm, h⟩, rfl⟩

/-- C1 witness: the empty message under the default configuration fails
all three threshold tests and is absent from the filter output. -/
theorem c1_acceptance_rule_witness :
    emailEmpty ∈ [emailEmpty] ∧
    ((((NewsletterDetector.detect rFalse defaultConfig emailEmpty).is_worth_reading
        = true) ↔
      (defaultConfig.newsletter_threshold ≤
          (NewsletterDetector.detect rFalse defaultConfig emailEmpty).newsletter_confidence ∧
       (NewsletterDetector.detect rFalse defaultConfig emailEmpty).promotional_score <
          defaultConfig.promotional_threshold ∧
       defaultConfig.quality_threshold ≤
          (NewsletterDetector.detect rFalse defaultConfig emailEmpty).quality_score)) ∧
     (((emailEmpty, NewsletterDetector.detect rFalse defaultConfig emailEmpty) ∈
         NewsletterDetector.filter_newsletters rFalse defaultConfig [emailEmpty] true) ↔
       ((NewsletterDetector.detect rFalse defaultConfig emailEmpty).is_worth_reading
         = true))) :=
  ⟨List.mem_singleton.mpr rfl,
   c1_acceptance_rule rFalse defaultConfig emailEmpty [emailEmpty]
     (List.mem_singleton.mpr rfl)⟩

/-- Ids and indices assigned by the `enumerate(chunks)` construction:
the `i`-th object (counting from `k`) has id
`source_email_id ++ "_" ++ repr (k + i)` and index `k + i`. -/
theorem mkChunksGo_get (c : CleanedContent) (total : Nat) :
    ∀ (ts : List (List Char)) (k i : Nat)
      (hi : i < (TextChunker.mkChunksGo c total k ts).length),
      ((TextChunker.mkChunksGo c total k ts).get ⟨i, hi⟩).id =
        c.source_email_id ++ ("_" ++ Nat.repr (k + i)) ∧
      ((TextChunker.mkChunksGo c total k ts).get ⟨i, hi⟩).chunk_index = k + i := by
  intro ts
  induction ts with
  | nil =>
    intro k i hi
    simp [TextChunker.mkChunksGo] at hi
  | cons t ts ih =>
    intro k i hi
    match i with
    | 0 =>
      refine ⟨?_, ?_⟩
      · show c.source_email_id ++ "_" ++ Nat.repr k = _
        rw [String.append_assoc, Nat.add_zero]
      · show k = k + 0
        omega
    | j + 1 =>
      have hj : j < (TextChunker.mkChunksGo c total (k + 1) ts).length := by
        have := hi
        simp [TextChunker.mkChunksGo] at this
        omega
      have h := ih (k + 1) j hj
      have harith : k + 1 + j = k + (j + 1) := by omega
      rw [harith] at h
      exact h

/-- C7: the segmenter is deterministic — two runs on the same document
and configuration give syntactically identical output — and every
window's id is derived from the pair (source id, ordinal): the window at
position `i` has id `source_email_id ++ "_" ++ repr i` and
`chunk_index = i`, in both the single-chunk and the multi-chunk path. -/
theorem c7_idempotent_windowing :
    ∀ (cs ov : Nat) (c : CleanedContent),
      TextChunker.chunk cs ov c = TextChunker.chunk cs ov c ∧
      ∀ (i : Nat) (hi : i < (TextChunker.chunk cs ov c).length),
        ((TextChunker.chunk cs ov c).get ⟨i, hi⟩).id =
          c.source_email_id ++ ("_" ++ Nat.repr i) ∧
        ((TextChunker.chunk cs ov c).get ⟨i, hi⟩).chunk_index = i := by
  intro cs ov c
  refine ⟨rfl, ?_⟩
  unfold TextChunker.chunk
  by_cases h : c.text.data.length ≤ cs
  · rw [if_pos h]
    intro i hi
    have hi1 : i < 1 := by simpa using hi
    have hi0 : i = 0 := by omega
    subst hi0
    refine ⟨?_, rfl⟩
    show c.source_email_id ++ "_" ++ Nat.repr 0 = _
    rw [String.append_assoc]
  · rw [if_neg h]
    intro i hi
    have h2 := mkChunksGo_get c _ _ 0 i hi
    rw [Nat.zero_add] at h2
    exact h2

/-- C7 witness: for the concrete three-sentence document the second
window (ordinal 1) carries id `"m1_1"`. -/
theorem c7_idempotent_windowing_witness :
    (TextChunker.chunk 10 3 contentCex).length = 2 ∧
    ((TextChunker.chunk 10 3 contentCex).get ⟨1, by decide⟩).id =
      contentCex.source_email_id ++ ("_" ++ Nat.repr 1) ∧
    ((TextChunker.chunk 10 3 contentCex).get ⟨1, by decide⟩).chunk_index = 1 :=
  ⟨by decide,
   ((c7_idempotent_windowing 10 3 contentCex).2 1 (by decide)).1,
   ((c7_idempotent_windowing 10 3 contentCex).2 1 (by decide)).2⟩

/-- The descending-quality comparison is transitive. -/
theorem qualityDescBool_trans :
    ∀ a b c : EmailMessage × DetectionResult,
      NewsletterDetector.qualityDescBool a b → NewsletterDetector.qualityDescBool b c →
      NewsletterDetector.qualityDescBool a c := by
  intro a b c
  simp only [NewsletterDetector.qualityDescBool, decide_eq_true_eq]
  exact fun h1 h2 => le_trans h2 h1

/-- The descending-quality comparison is total. -/
theorem qualityDescBool_total :
    ∀ a b : EmailMessage × DetectionResult,
      NewsletterDetector.qualityDescBool a b || NewsletterDetector.qualityDescBool b a := by
  intro a b
  simp only [NewsletterDetector.qualityDescBool, Bool.or_eq_true, decide_eq_true_eq]
  exact le_total _ _

/-- C10: with `quality_only=True` the filter output is ordered by
quality score descending, and — stability of Python's `list.sort`, also
under `reverse=True` — for every quality value `q` the output's
subsequence of verdicts scoring exactly `q` equals, element for element
and in order, the corresponding subsequence of the accepted messages in
input order.  So equal-score pairs keep their input order. -/
theorem c10_stable_sort :
    ∀ (r : RegexOracle) (cfg : DetectorConfig) (ms : List EmailMessage),
      List.Pairwise (fun a b => b.2.quality_score ≤ a.2.quality_score)
        (NewsletterDetector.filter_newsletters r cfg ms true) ∧
      ∀ q : ℚ,
        (NewsletterDetector.filter_newsletters r cfg ms true).filter
          (fun x => decide (x.2.quality_score = q)) =
        ((ms.filter (fun m => (NewsletterDetector.detect r cfg m).is_worth_reading)).map
          (fun m => (m, NewsletterDetector.detect r cfg m))).filter
          (fun x => decide (x.2.quality_score = q)) := by
  intro r cfg ms
  have hout : NewsletterDetector.filter_newsletters r cfg ms true =
      ((ms.filter (fun m => (NewsletterDetector.detect r cfg m).is_worth_reading)).map
        (fun m => (m, NewsletterDetector.detect r cfg m))).mergeSort
        NewsletterDetector.qualityDescBool := by
    rw [NewsletterDetector.filter_newsletters, filterLoop_quality_eq, List.nil_append]
  constructor
  · rw [hout]
    have hs := List.sorted_mergeSort qualityDescBool_trans qualityDescBool_total
      ((ms.filter (fun m => (NewsletterDetector.detect r cfg m).is_worth_reading)).map
        (fun m => (m, NewsletterDetector.detect r cfg m)))
    exact hs.imp (fun h => by
      simpa [NewsletterDetector.qualityDescBool] using h)
  · intro q
    rw [hout]
    set kept := ((ms.filter
      (fun m => (NewsletterDetector.detect r cfg m).is_worth_reading)).map
      (fun m => (m, NewsletterDetector.detect r cfg m))) with hkept
    set p := (fun x : EmailMessage × DetectionResult =>
      decide (x.2.quality_score = q)) with hp
    have hpair : (kept.filter p).Pairwise
        (fun a b => NewsletterDetector.qualityDescBool a b = true) := by
      refine List.pairwise_of_forall_mem_list ?_
      intro a ha b hb
      have ha2 := List.of_mem_filter ha
      have hb2 := List.of_mem_filter hb
      rw [hp] at ha2 hb2
      simp only [decide_eq_true_eq] at ha2 hb2
      simp [NewsletterDetector.qualityDescBool, ha2, hb2]
    have hsub : List.Sublist (kept.filter p)
        (kept.mergeSort NewsletterDetector.qualityDescBool) :=
      List.sublist_mergeSort qualityDescBool_trans qualityDescBool_total hpair
        (List.filter_sublist kept)
    have hsubf : List.Sublist (kept.filter p)
        ((kept.mergeSort NewsletterDetector.qualityDescBool).filter p) := by
      have h2 := hsub.filter p
      rwa [List.filter_filter, show (fun a => p a && p a) = p from funext
        (fun a => Bool.and_self (p a))] at h2
    have hperm : List.Perm
        ((kept.mergeSort NewsletterDetector.qualityDescBool).filter p)
        (kept.filter p) :=
      (List.mergeSort_perm kept NewsletterDetector.qualityDescBool).filter p
    exact (hsubf.eq_of_length hperm.length_eq.symm).symm

/-- `l[-n:]` keeps at most `n` elements. -/
theorem takeRight_length_le (n : Nat) (cs : List Char) :
    (TextChunker.takeRight n cs).length ≤ n := by
  simp [TextChunker.takeRight]
  omega

/-- Appending one more piece to a join costs its length plus one space
(none when the join was empty). -/
theorem joinSpace_snoc (l : List (List Char)) (s : List Char) :
    TextChunker.joinSpace (l ++ [s]) =
      if l = [] then s else TextChunker.joinSpace l ++ ' ' :: s := by
  induction l with
  | nil => simp [TextChunker.joinSpace]
  | cons a l ih =>
    cases l with
    | nil => simp [TextChunker.joinSpace]
    | cons b l2 =>
      have hne : (b :: l2 : List (List Char)) ≠ [] := by simp
      have e1 : TextChunker.joinSpace ((a :: b :: l2) ++ [s]) =
          a ++ ' ' :: TextChunker.joinSpace ((b :: l2) ++ [s]) := rfl
      have e2 : TextChunker.joinSpace (a :: b :: l2) =
          a ++ ' ' :: TextChunker.joinSpace (b :: l2) := rfl
      rw [e1, ih, if_neg hne, if_neg (by simp : ¬(a :: b :: l2 : List (List Char)) = []),
        e2]
      simp [List.append_assoc]

/-- Length form of `joinSpace_snoc`. -/
theorem joinSpace_snoc_length (l : List (List Char)) (s : List Char) :
    (TextChunker.joinSpace (l ++ [s])).length =
      (if l = [] then 0 else (TextChunker.joinSpace l).length + 1) + s.length := by
  rw [joinSpace_snoc]
  split_ifs <;> simp [List.length_append] <;> omega

/-- Stripping never lengthens a string. -/
theorem pyStripChars_length_le (cs : List Char) :
    (pyStripChars cs).length ≤ cs.length := by
  unfold pyStripChars
  have h1 : (cs.dropWhile pyIsSpace).length ≤ cs.length :=
    (List.dropWhile_sublist pyIsSpace).length_le
  have h2 : ((cs.dropWhile pyIsSpace).reverse.dropWhile pyIsSpace).length ≤
      (cs.dropWhile pyIsSpace).reverse.length :=
    (List.dropWhile_sublist pyIsSpace).length_le
  simp only [List.length_reverse] at h2 ⊢
  omega

/-- With a positive overlap budget the seed is within the budget (the
`[-0:]` quirk is confined to `overlap = 0`). -/
theorem overlapSeed_length_le (ov : Nat) (hov : 1 ≤ ov) (cur : List (List Char)) :
    (TextChunker.overlapSeed ov cur).length ≤ ov := by
  simp only [TextChunker.overlapSeed]
  set ov0 := if 2 ≤ cur.length then
    TextChunker.joinSpace (cur.drop (cur.length - 2)) else [] with hov0
  by_cases hlen : ov < ov0.length
  · rw [if_pos hlen]
    have hne : ¬ ov = 0 := by omega
    rw [if_neg hne]
    exact takeRight_length_le ov ov0
  · rw [if_neg hlen]
    omega

/-- The loop invariant is preserved by one iteration of the sentence
loop: a sentence within `chunk_size` keeps (or re-enters) the bounded
regime, and an oversized sentence begins an oversized-sentence window. -/
theorem chunkStep_inv (cs ov : Nat) (hov : 1 ≤ ov) (sents : List (List Char))
    (st : TextChunker.ChunkState) (s : List Char) (hsmem : s ∈ sents)
    (h : ChunkInv cs ov sents st) :
    ChunkInv cs ov sents (TextChunker.chunkStep cs ov st s) := by
  obtain ⟨h1, h2, h4, h5⟩ := h
  simp only [TextChunker.chunkStep]
  by_cases hc : cs < st.clen + s.length ∧ st.cur ≠ []
  · rw [if_pos hc]
    have hseed := overlapSeed_length_le ov hov st.cur
    refine ⟨?_, ?_, ?_, ?_⟩
    · intro w hw
      simp only at hw
      rcases List.mem_append.mp hw with hmem | hmem
      · exact h1 w hmem
      · rw [List.mem_singleton] at hmem
        subst hmem
        rcases h5 with hlen | ⟨s2, hs2, hbig, hshape⟩
        · exact Or.inl (le_trans h2 hlen)
        · refine Or.inr ⟨s2, hs2, hbig, ?_⟩
          rcases hshape with hc1 | ⟨seed, hseedlen, hc2⟩
          · left
            rw [hc1]
            rfl
          · right
            exact ⟨seed, hseedlen, by rw [hc2]; rfl⟩
    · by_cases hne : TextChunker.overlapSeed ov st.cur = []
      · simp only [hne]
        simp [TextChunker.joinSpace]
      · simp only [hne]
        simp only [ne_eq, hne, not_false_eq_true, if_true, ite_true]
        have e3 : TextChunker.joinSpace
            ([TextChunker.overlapSeed ov st.cur] ++ [s]) =
            TextChunker.overlapSeed ov st.cur ++ ' ' :: s := rfl
        simp only [List.singleton_append] at e3 ⊢
        rw [e3]
        simp [List.length_append]
        omega
    · intro habs
      simp at habs
    · by_cases hbig : cs < s.length
      · refine Or.inr ⟨s, hsmem, hbig, ?_⟩
        by_cases hne : TextChunker.overlapSeed ov st.cur = []
        · left
          simp [hne]
        · right
          refine ⟨TextChunker.overlapSeed ov st.cur, hseed, ?_⟩
          simp [hne]
      · left
        show (TextChunker.overlapSeed ov st.cur).length + s.length + 1 ≤ cs + ov + 1
        omega
  · rw [if_neg hc]
    refine ⟨h1, ?_, ?_, ?_⟩
    · rw [joinSpace_snoc_length]
      by_cases hcur : st.cur = []
      · simp [hcur]
        omega
      · simp only [hcur, if_false, ite_false]
        omega
    · intro habs
      simp at habs
    · by_cases hcur : st.cur = []
      · have h0 := h4 hcur
        by_cases hbig : cs < s.length
        · refine Or.inr ⟨s, hsmem, hbig, Or.inl ?_⟩
          show st.cur ++ [s] = [s]
          rw [hcur]
          rfl
        · left
          show st.clen + s.length + 1 ≤ cs + ov + 1
          omega
      · have hnl : ¬ cs < st.clen + s.length := fun hlt => hc ⟨hlt, hcur⟩
        left
        show st.clen + s.length + 1 ≤ cs + ov + 1
        omega

/-- The invariant is preserved by the whole sentence loop. -/
theorem foldl_chunkStep_inv (cs ov : Nat) (hov : 1 ≤ ov) (sents : List (List Char)) :
    ∀ (todo : List (List Char)), (∀ s ∈ todo, s ∈ sents) →
      ∀ st, ChunkInv cs ov sents st →
        ChunkInv cs ov sents (todo.foldl (TextChunker.chunkStep cs ov) st) := by
  intro todo
  induction todo with
  | nil => intro _ st h; exact h
  | cons a l ih =>
    intro hall st h
    rw [List.foldl_cons]
    exact ih (fun s hsm => hall s (List.mem_cons_of_mem a hsm)) _
      (chunkStep_inv cs ov hov sents st a (hall a (List.mem_cons_self a l)) h)

/-- Every chunk text emitted by the multi-chunk path (including the final
flush) is a `GoodWindow`: bounded by `chunk_size + overlap + 1`, or one
whole oversized sentence with at most an overlap seed and a space in
front of it. -/
theorem chunkTexts_goodWindow (cs ov : Nat) (hov : 1 ≤ ov) (text : List Char) :
    ∀ t ∈ TextChunker.chunkTexts cs ov text,
      GoodWindow cs ov (TextChunker.splitIntoSentences text) t := by
  intro t ht
  have hinit : ChunkInv cs ov (TextChunker.splitIntoSentences text) ⟨[], [], 0⟩ :=
    ⟨by simp, by simp [TextChunker.joinSpace], fun _ => rfl, Or.inl (Nat.zero_le _)⟩
  have hinv := foldl_chunkStep_inv cs ov hov (TextChunker.splitIntoSentences text)
    (TextChunker.splitIntoSentences text) (fun _ hs => hs) ⟨[], [], 0⟩ hinit
  obtain ⟨h1, h2, h4, h5⟩ := hinv
  simp only [TextChunker.chunkTexts] at ht
  rcases List.mem_append.mp ht with hmem | hmem
  · exact h1 t hmem
  · by_cases hcur : ((TextChunker.splitIntoSentences text).foldl
        (TextChunker.chunkStep cs ov) ⟨[], [], 0⟩).cur ≠ []
    · rw [if_pos hcur, List.mem_singleton] at hmem
      subst hmem
      rcases h5 with hlen | ⟨s2, hs2, hbig, hshape⟩
      · exact Or.inl (le_trans h2 hlen)
      · refine Or.inr ⟨s2, hs2, hbig, ?_⟩
        rcases hshape with hc1 | ⟨seed, hseedlen, hc2⟩
        · left
          rw [hc1]
          rfl
        · right
          exact ⟨seed, hseedlen, by rw [hc2]; rfl⟩
    · rw [if_neg hcur] at hmem
      exact absurd hmem (List.not_mem_nil t)

/-- Every produced window text is the strip of one of the accumulated
chunk texts. -/
theorem mkChunksGo_text_mem (c : CleanedContent) (total : Nat) :
    ∀ (ts : List (List Char)) (k : Nat) (ch : TextChunk),
      ch ∈ TextChunker.mkChunksGo c total k ts →
      ∃ t ∈ ts, ch.text = pyStrip ⟨t⟩ := by
  intro ts
  induction ts with
  | nil =>
    intro k ch h
    simp [TextChunker.mkChunksGo] at h
  | cons t ts ih =>
    intro k ch h
    rw [TextChunker.mkChunksGo] at h
    rcases List.mem_cons.mp h with heq | hmem
    · exact ⟨t, List.mem_cons_self t ts, by rw [heq]⟩
    · obtain ⟨t2, ht2, he⟩ := ih (k + 1) ch hmem
      exact ⟨t2, List.mem_cons_of_mem t ht2, he⟩

/-- C3 counterexample: with `chunk_size = 10`, `overlap = 3` and the
document `"ab. cd. efghijklm."` (sentences of lengths 3, 3, 10 — none
exceeding the window size), the second emitted window is
`"cd. efghijklm."` of length 14 > 10.  It is the overlap seed `"cd."`
plus the 10-character sentence, appended without a size re-check — not a
single oversized sentence — so the claimed bound fails. -/
theorem c3_size_bound_cex :
    (TextChunker.chunk 10 3 contentCex).map (fun ch => ch.text) =
      ["ab. cd.", "cd. efghijklm."] ∧
    (TextChunker.splitIntoSentences contentCex.text.data).map List.length =
      [3, 3, 10] ∧
    (TextChunker.chunk 10 3 contentCex).map (fun ch => ch.text.length) = [7, 14] := by
  refine ⟨?_, ?_, ?_⟩ <;> decide

/-- C3 amended, per window: for every configuration with
`1 ≤ overlap < chunk_size` and every document, every emitted window
either has text length at most `chunk_size + overlap + 1` (so the
claimed bound `chunk_size` itself can be exceeded by up to
`overlap + 1`, because after a flush the pending sentence is appended to
the overlap seed without a size re-check), or it is an oversized-sentence
window: its text is the strip of one whole sentence of the document
longer than `chunk_size`, standing alone or preceded by exactly one
overlap seed of at most `overlap` characters and a single joining space,
and its length is at most `overlap + 1` plus that sentence's length.
The oversized sentence is thus never truncated or split across windows:
it is carried in full, as the entire remainder of its one window (the
final strip removes only surrounding whitespace). -/
theorem c3_size_bound :
    ∀ (cs ov : Nat) (c : CleanedContent), 1 ≤ ov → ov < cs →
      ∀ ch ∈ TextChunker.chunk cs ov c,
        ch.text.length ≤ cs + ov + 1 ∨
        ∃ s ∈ TextChunker.splitIntoSentences c.text.data, cs < s.length ∧
          ch.text.length ≤ ov + 1 + s.length ∧
          (ch.text = pyStrip ⟨s⟩ ∨
           ∃ seed : List Char, seed.length ≤ ov ∧
             ch.text = pyStrip ⟨seed ++ ' ' :: s⟩) := by
  intro cs ov c hov hlt ch hch
  unfold TextChunker.chunk at hch
  by_cases h : c.text.data.length ≤ cs
  · rw [if_pos h, List.mem_singleton] at hch
    subst hch
    left
    show c.text.length ≤ cs + ov + 1
    have he : c.text.length = c.text.data.length := rfl
    omega
  · rw [if_neg h] at hch
    obtain ⟨t, htmem, htext⟩ := mkChunksGo_text_mem c _ _ 0 ch hch
    have hg := chunkTexts_goodWindow cs ov hov c.text.data t htmem
    have hlen : ch.text.length = (pyStripChars t).length := by
      rw [htext]
      rfl
    have hstrip := pyStripChars_length_le t
    rcases hg with hb | ⟨s, hsmem, hbig, hshape⟩
    · left
      omega
    · right
      rcases hshape with hts | ⟨seed, hseedlen, hts⟩
      · rw [hts] at hlen hstrip htext
        exact ⟨s, hsmem, hbig, by omega, Or.inl htext⟩
      · rw [hts] at hlen hstrip htext
        refine ⟨s, hsmem, hbig, ?_, Or.inr ⟨seed, hseedlen, htext⟩⟩
        have hl2 : (seed ++ ' ' :: s).length = seed.length + s.length + 1 := by
          simp [List.length_append]
          omega
        omega

/-- C3 witness, on a document that does contain an oversized sentence
(lengths 3, 3, 14 with `chunk_size = 10`, `overlap = 3`): every window is
within `10 + 3 + 1` characters or is the strip of the whole 14-character
sentence behind at most a 3-character seed and a space. -/
theorem c3_size_bound_witness :
    ((1 : Nat) ≤ 3 ∧ (3 : Nat) < 10) ∧
    (∀ ch ∈ TextChunker.chunk 10 3 contentOversized,
       ch.text.length ≤ 10 + 3 + 1 ∨
       ∃ s ∈ TextChunker.splitIntoSentences contentOversized.text.data,
         10 < s.length ∧ ch.text.length ≤ 3 + 1 + s.length ∧
         (ch.text = pyStrip ⟨s⟩ ∨
          ∃ seed : List Char, seed.length ≤ 3 ∧
            ch.text = pyStrip ⟨seed ++ ' ' :: s⟩)) :=
  ⟨⟨by decide, by decide⟩,
   c3_size_bound 10 3 contentOversized (by decide) (by decide)⟩
